import Mathlib

/-!
Shallow embedding of the seat-inventory / reservation core of the
movie-registration service (src/models/Reservation.js,
src/controllers/reservationController.js, src/controllers/showtimeController.js).

Time is integer milliseconds since the epoch; money is `Rat`.
-/

namespace MovieReg

/-- Seat classes, as in the `availableSeats.type` enum. -/
inductive SeatType where
  | regular
  | premium
  | vip
deriving DecidableEq, Repr

/-- A requested seat key: the (row, number) pair used throughout the code. -/
structure SeatKey where
  row : String
  number : Int
deriving DecidableEq, Repr

/-- One entry of `showtimeSchema.availableSeats`. -/
structure Seat where
  row : String
  number : Int
  type : SeatType
  price : Rat
  isAvailable : Bool
deriving DecidableEq, Repr

/-- One entry of `showtimeSchema.reservedSeats` (a seat-claim record). -/
structure ReservedSeat where
  row : String
  number : Int
  reservedBy : Nat
  reservedAt : Int
deriving DecidableEq, Repr

/-- The showtime (screening) document fields the booking core reads and writes. -/
structure Showtime where
  theater : Nat
  startTime : Int
  endTime : Int
  basePrice : Rat
  availableSeats : List Seat
  reservedSeats : List ReservedSeat
  isActive : Bool
deriving DecidableEq, Repr

/-- Reservation lifecycle statuses (the `status` enum). -/
inductive ResStatus where
  | pending
  | confirmed
  | cancelled
  | completed
  | no_show
deriving DecidableEq, Repr

/-- One entry of `reservationSchema.seats`: a seat with captured class and price. -/
structure ResSeat where
  row : String
  number : Int
  type : SeatType
  price : Rat
deriving DecidableEq, Repr

/-- The reservation document fields the lifecycle operations read and write.
The `showtime` field stands for the populated showtime document. -/
structure Reservation where
  user : Nat
  showtime : Showtime
  seats : List ResSeat
  totalAmount : Rat
  status : ResStatus
  checkInTime : Option Int
  cancellationReason : Option String
  cancelledAt : Option Int
  refundAmount : Option Rat
deriving DecidableEq, Repr

/-- Milliseconds in two hours (`2 * 60 * 60 * 1000`). -/
def twoHoursMs : Int := 7200000

/-- The predicate of the `find` inside `reserveSeats` and of the availability
pre-check in `createReservation`: same (row, number) and still available. -/
def availMatch (k : SeatKey) (s : Seat) : Bool :=
  s.row == k.row && s.number == k.number && s.isAvailable

/-- The bare (row, number) match used by `releaseSeats`, `getSeatPrice` and the
price-capture loop of `createReservation`. -/
def keyMatch (k : SeatKey) (s : Seat) : Bool :=
  s.row == k.row && s.number == k.number

/-- The key match on claim records used by the `filter` in `releaseSeats`. -/
def claimMatch (k : SeatKey) (c : ReservedSeat) : Bool :=
  c.row == k.row && c.number == k.number

/-- `this.availableSeats.find(s => s.row === row && s.number === number && s.isAvailable)`. -/
def findAvail (st : Showtime) (k : SeatKey) : Option Seat :=
  st.availableSeats.find? (availMatch k)

/-- The in-place mutation `seat.isAvailable = false` applied to the seat object
returned by `find`: the first list element satisfying `availMatch` is updated. -/
def setFirstUnavail (k : SeatKey) : List Seat → List Seat
  | [] => []
  | s :: rest =>
    if availMatch k s then { s with isAvailable := false } :: rest
    else s :: setFirstUnavail k rest

/-- The in-place mutation `availableSeat.isAvailable = true` in `releaseSeats`:
the first list element with the given key (availability not tested) is updated. -/
def setFirstAvail (k : SeatKey) : List Seat → List Seat
  | [] => []
  | s :: rest =>
    if keyMatch k s then { s with isAvailable := true } :: rest
    else s :: setFirstAvail k rest

/-- The loop body of `showtimeSchema.methods.reserveSeats`: walk the requested
seats; on the first seat with no available match, throw (leaving the seats
already visited flipped unavailable, and `this.reservedSeats` untouched); on
completion push all new claims onto `this.reservedSeats`. -/
def reserveLoop (uid : Nat) (now : Int) (st : Showtime) (acc : List ReservedSeat) :
    List SeatKey → Showtime × Except String (List ReservedSeat)
  | [] => ({ st with reservedSeats := st.reservedSeats ++ acc }, Except.ok acc)
  | k :: rest =>
    match findAvail st k with
    | none => (st, Except.error ("Seat " ++ k.row ++ toString k.number ++ " is not available"))
    | some s =>
      reserveLoop uid now { st with availableSeats := setFirstUnavail k st.availableSeats }
        (acc ++ [{ row := s.row, number := s.number, reservedBy := uid, reservedAt := now }]) rest

/-- `showtimeSchema.methods.reserveSeats(seats, userId)`: returns the mutated
document together with either the new claim records or the thrown error. -/
def Showtime.reserveSeats (st : Showtime) (ks : List SeatKey) (uid : Nat) (now : Int) :
    Showtime × Except String (List ReservedSeat) :=
  reserveLoop uid now st [] ks

/-- One iteration of `showtimeSchema.methods.releaseSeats`: drop every claim
record with the seat key, and flip the matching inventory seat back available. -/
def releaseOne (st : Showtime) (k : SeatKey) : Showtime :=
  { st with
    reservedSeats := st.reservedSeats.filter (fun c => !(claimMatch k c)),
    availableSeats := setFirstAvail k st.availableSeats }

/-- `showtimeSchema.methods.releaseSeats(seats)`. -/
def Showtime.releaseSeats (st : Showtime) (ks : List SeatKey) : Showtime :=
  ks.foldl releaseOne st

/-- `reservationSchema.virtual('isCancellable')` evaluated at time `now`
(with a populated showtime, so `this.showtime.startTime` is present). -/
def isCancellable (r : Reservation) (now : Int) : Bool :=
  if r.status = ResStatus.cancelled ∨ r.status = ResStatus.completed then false
  else decide (now + twoHoursMs < r.showtime.startTime)

/-- Hours from `now` until the screening start, as computed in `cancel`:
`(this.showtime.startTime - new Date()) / (1000 * 60 * 60)`. -/
def hoursUntil (r : Reservation) (now : Int) : Rat :=
  ((r.showtime.startTime - now : Int) : Rat) / 3600000

/-- `reservationSchema.methods.cancel(reason)` at time `now`. -/
def Reservation.cancel (r : Reservation) (reason : String) (now : Int) :
    Except String Reservation :=
  if isCancellable r now = false then
    Except.error "This reservation cannot be cancelled"
  else
    let h := hoursUntil r now
    let refund : Rat :=
      if 24 < h then r.totalAmount * (9 / 10)
      else if 2 < h then r.totalAmount * (1 / 2)
      else 0
    Except.ok { r with
      status := ResStatus.cancelled,
      cancellationReason := some reason,
      cancelledAt := some now,
      refundAmount := some refund }

/-- `reservationSchema.methods.confirm()`. -/
def Reservation.confirm (r : Reservation) : Reservation :=
  { r with status := ResStatus.confirmed }

/-- `reservationSchema.methods.complete()`. -/
def Reservation.complete (r : Reservation) : Reservation :=
  { r with status := ResStatus.completed }

/-- `reservationSchema.methods.markAsNoShow()`. -/
def Reservation.markAsNoShow (r : Reservation) : Reservation :=
  { r with status := ResStatus.no_show }

/-- `reservationSchema.methods.checkIn()` at time `now`. -/
def Reservation.checkIn (r : Reservation) (now : Int) : Reservation :=
  { r with checkInTime := some now }

/-- Errors of the check-in controller: the status guard fires before the
window guards. -/
inductive CheckInError where
  | invalidStatus
  | tooEarly
  | tooLate
deriving DecidableEq, Repr

/-- `checkInReservation` (reservationController): reject non-`confirmed`
status, then compare `timeDiff = (start - now) / 60000` minutes against the
120-minute and -30-minute bounds, then record the check-in time. -/
def checkInReservation (r : Reservation) (now : Int) : Except CheckInError Reservation :=
  if r.status ≠ ResStatus.confirmed then Except.error CheckInError.invalidStatus
  else if 120 < ((r.showtime.startTime - now : Int) : Rat) / 60000 then
    Except.error CheckInError.tooEarly
  else if ((r.showtime.startTime - now : Int) : Rat) / 60000 < -30 then
    Except.error CheckInError.tooLate
  else Except.ok (r.checkIn now)

/-- The `validStatuses.includes(status)` check of `updateReservationStatus`,
as a parser into the status enum. -/
def parseStatus (s : String) : Option ResStatus :=
  if s = "pending" then some ResStatus.pending
  else if s = "confirmed" then some ResStatus.confirmed
  else if s = "cancelled" then some ResStatus.cancelled
  else if s = "completed" then some ResStatus.completed
  else if s = "no_show" then some ResStatus.no_show
  else none

/-- `updateReservationStatus` (admin endpoint): after the enum check, the
switch calls `confirm` / `complete` / `markAsNoShow` or assigns the status
directly; no transition validation is performed. -/
def updateReservationStatus (r : Reservation) (status : String) :
    Except String Reservation :=
  match parseStatus status with
  | none => Except.error "Invalid status"
  | some t =>
    match t with
    | ResStatus.confirmed => Except.ok r.confirm
    | ResStatus.completed => Except.ok r.complete
    | ResStatus.no_show => Except.ok r.markAsNoShow
    | _ => Except.ok { r with status := t }

/-- Result of a `createReservation` call, mirroring the controller's
response branches. -/
inductive BookResult where
  | invalidShowtime
  | showtimeUnavailable
  | seatsUnavailable (keys : List String)
  | seatReservationFailed (msg : String)
  | created (r : Reservation)
deriving DecidableEq, Repr

/-- Observable outcome of one `createReservation` call: the HTTP-level result,
the showtime document as persisted when the call returns, and whether a
reservation record was persisted. -/
structure BookOutcome where
  result : BookResult
  savedShowtime : Showtime
  reservationPersisted : Bool
deriving DecidableEq, Repr

/-- The seat string `row + number` used in the unavailable-seats message. -/
def seatKeyStr (k : SeatKey) : String := k.row ++ toString k.number

/-- The captured seats of the new reservation document: for each requested key,
`availableSeats.find(s => s.row === seat.row && s.number === seat.number)`
supplies the class and price (the pre-check guarantees the find succeeds). -/
def captureSeats (st : Showtime) (ks : List SeatKey) : List ResSeat :=
  ks.map (fun k =>
    match st.availableSeats.find? (keyMatch k) with
    | some s => { row := k.row, number := k.number, type := s.type, price := s.price }
    | none => { row := k.row, number := k.number, type := SeatType.regular, price := 0 })

/-- The reservation document built by `createReservation` before the saves:
captured seats, their summed total, payment amount equal to the total, and
the schema's default `pending` status. -/
def buildReservation (st : Showtime) (ks : List SeatKey) (uid : Nat) : Reservation :=
  { user := uid, showtime := st, seats := captureSeats st ks,
    totalAmount := (captureSeats st ks).foldl (fun t e => t + e.price) 0,
    status := ResStatus.pending, checkInTime := none, cancellationReason := none,
    cancelledAt := none, refundAmount := none }

/-- `createReservation` (reservationController), with the persisted showtime
state threaded explicitly.  `reservationSaveOk` says whether
`reservation.save()` succeeds.  The guards run in source order: active
showtime, future start, availability pre-check; then `reserveSeats` mutates
the document, `showtimeDoc.save()` persists it, and `reservation.save()`
runs. A failure of `reservation.save()` is caught by the inner catch and
reported as a 400 — the already-persisted seat claims are not released. -/
def createReservation (st : Showtime) (ks : List SeatKey) (uid : Nat) (now : Int)
    (reservationSaveOk : Bool) : BookOutcome :=
  if st.isActive = false then
    { result := BookResult.invalidShowtime, savedShowtime := st, reservationPersisted := false }
  else if st.startTime ≤ now then
    { result := BookResult.showtimeUnavailable, savedShowtime := st, reservationPersisted := false }
  else if (ks.filter (fun k => (findAvail st k).isNone)).map seatKeyStr ≠ [] then
    { result := BookResult.seatsUnavailable
        ((ks.filter (fun k => (findAvail st k).isNone)).map seatKeyStr),
      savedShowtime := st, reservationPersisted := false }
  else
    match st.reserveSeats ks uid now with
    | (_, Except.error msg) =>
      { result := BookResult.seatReservationFailed msg, savedShowtime := st,
        reservationPersisted := false }
    | (st2, Except.ok _) =>
      if reservationSaveOk then
        { result := BookResult.created (buildReservation st ks uid), savedShowtime := st2,
          reservationPersisted := true }
      else
        { result := BookResult.seatReservationFailed "Failed to save reservation",
          savedShowtime := st2, reservationPersisted := false }

/-- A screening row as seen by the scheduling-conflict queries. -/
structure ScreeningRec where
  sid : Nat
  theater : Nat
  startTime : Int
  endTime : Int
  isActive : Bool
deriving DecidableEq, Repr

/-- The `Showtime.findOne` conflict query of `createShowtime`: same theater,
active, `startTime < endTime(new)` and `endTime > startTime(new)`. -/
def findConflict (existing : List ScreeningRec) (th : Nat) (s e : Int) :
    Option ScreeningRec :=
  existing.find? (fun o =>
    o.theater == th && o.isActive && decide (o.startTime < e) && decide (s < o.endTime))

/-- The conflict query of `updateShowtime`, which excludes the screening
being edited (`_id: { $ne: id }`). -/
def findConflictExcl (existing : List ScreeningRec) (selfId th : Nat) (s e : Int) :
    Option ScreeningRec :=
  existing.find? (fun o =>
    !(o.sid == selfId) && o.theater == th && o.isActive &&
      decide (o.startTime < e) && decide (s < o.endTime))

/-- Result of `createShowtime` after the movie/theater existence checks. -/
inductive CreateShowtimeResult where
  | scheduleConflict (sid : Nat)
  | invalidWindow
  | pastStart
  | ok (rec : ScreeningRec)
deriving DecidableEq, Repr

/-- `createShowtime` (showtimeController), from the conflict check on: a
colliding active screening at the theater yields the scheduling-conflict
response; otherwise the document is saved, whose pre-save hook rejects
`endTime <= startTime` and a start in the past. -/
def createShowtime (existing : List ScreeningRec) (newId th : Nat) (s e now : Int) :
    CreateShowtimeResult :=
  match findConflict existing th s e with
  | some c => CreateShowtimeResult.scheduleConflict c.sid
  | none =>
    if e ≤ s then CreateShowtimeResult.invalidWindow
    else if s < now then CreateShowtimeResult.pastStart
    else CreateShowtimeResult.ok { sid := newId, theater := th, startTime := s, endTime := e, isActive := true }

/-- Result of `updateShowtime` for a screening that exists. -/
inductive UpdateShowtimeResult where
  | pastShowtime
  | hasReservations
  | scheduleConflict (sid : Nat)
  | invalidWindow
  | ok (rec : ScreeningRec)
deriving DecidableEq, Repr

/-- `updateShowtime` (showtimeController): reject edits of screenings that
already started or that have claim records; when theater or times change,
run the self-excluding conflict query; then `Object.assign` and save (the
pre-save hook still rejects `endTime <= startTime`). -/
def updateShowtime (existing : List ScreeningRec) (cur : ScreeningRec)
    (curReserved : List ReservedSeat) (newTheater : Option Nat)
    (newStart newEnd : Option Int) (now : Int) : UpdateShowtimeResult :=
  if cur.startTime < now then UpdateShowtimeResult.pastShowtime
  else if curReserved ≠ [] then UpdateShowtimeResult.hasReservations
  else if newTheater.isSome || newStart.isSome || newEnd.isSome then
    let th := newTheater.getD cur.theater
    let s := newStart.getD cur.startTime
    let e := newEnd.getD cur.endTime
    match findConflictExcl existing cur.sid th s e with
    | some c => UpdateShowtimeResult.scheduleConflict c.sid
    | none =>
      if e ≤ s then UpdateShowtimeResult.invalidWindow
      else UpdateShowtimeResult.ok { cur with theater := th, startTime := s, endTime := e }
  else
    if cur.endTime ≤ cur.startTime then UpdateShowtimeResult.invalidWindow
    else UpdateShowtimeResult.ok cur

/-- Uniqueness of seat keys within a screening (the §3 inventory invariant). -/
def seatKeysNodup (l : List Seat) : Prop :=
  (l.map (fun s => (s.row, s.number))).Nodup

instance (l : List Seat) : Decidable (seatKeysNodup l) := by
  unfold seatKeysNodup
  infer_instance

/-- `ks.foldl` application of the per-seat flip of `reserveSeats`, i.e. the
cumulative effect of the loop on `availableSeats`. -/
def flipAll (ks : List SeatKey) (l : List Seat) : List Seat :=
  ks.foldl (fun acc k => setFirstUnavail k acc) l

/-- Fixture: seat key A1. -/
def kA1 : SeatKey := { row := "A", number := 1 }

/-- Fixture: seat key A2. -/
def kA2 : SeatKey := { row := "A", number := 2 }

/-- Fixture: available seat A1, regular, price 10. -/
def seatA1 : Seat :=
  { row := "A", number := 1, type := SeatType.regular, price := 10, isAvailable := true }

/-- Fixture: available seat A2, regular, price 10. -/
def seatA2 : Seat :=
  { row := "A", number := 2, type := SeatType.regular, price := 10, isAvailable := true }

/-- Fixture: an active future showtime with seats A1, A2 free. -/
def stBase : Showtime :=
  { theater := 1, startTime := 1000000, endTime := 2000000, basePrice := 10,
    availableSeats := [seatA1, seatA2], reservedSeats := [], isActive := true }

/-- Fixture: like `stBase` but starting far in the future (about 27.8 hours
after time 0). -/
def stFar : Showtime :=
  { theater := 1, startTime := 100000000, endTime := 110000000, basePrice := 10,
    availableSeats := [seatA1, seatA2], reservedSeats := [], isActive := true }

/-- Fixture: a reservation on a given showtime with a given status. -/
def mkRes (st : Showtime) (s : ResStatus) : Reservation :=
  { user := 7, showtime := st, seats := [], totalAmount := 20, status := s,
    checkInTime := none, cancellationReason := none, cancelledAt := none,
    refundAmount := none }

/-- Fixture: showtime in which seat A1 is claimed by user 9. -/
def stClaimed : Showtime :=
  { stBase with
    availableSeats := [{ seatA1 with isAvailable := false }, seatA2],
    reservedSeats := [{ row := "A", number := 1, reservedBy := 9, reservedAt := 0 }] }

/-- Fixture: an active screening occupying [50, 150) at theater 1. -/
def scrEarly : ScreeningRec :=
  { sid := 5, theater := 1, startTime := 50, endTime := 150, isActive := true }

/-- Fixture: an active screening occupying [200, 300) at theater 1. -/
def scrLate : ScreeningRec :=
  { sid := 5, theater := 1, startTime := 200, endTime := 300, isActive := true }

/-- Fixture: a screening occupying [100, 200) at theater 1. -/
def scrMid : ScreeningRec :=
  { sid := 9, theater := 1, startTime := 100, endTime := 200, isActive := true }

/-- The refund policy exactly as the spec words it: 0.9 of the total above
24 hours, 0.5 of the total in (2, 24] hours, 0 at or below 2 hours. -/
def refundSpec (total : Rat) (hrs : Rat) : Rat :=
  if 24 < hrs then (9 / 10) * total
  else if 2 < hrs ∧ hrs ≤ 24 then (1 / 2) * total
  else 0

/-- C1: after a booking in which the seat claim was persisted but
`reservation.save()` failed, the code reports the error without releasing the
claim: the persisted showtime still holds the claim and the flipped seat, and
no reservation record exists — refuting the claimed release-before-error and
the claimed "record exists iff seats claimed" equivalence. -/
theorem createReservation_no_release_on_save_failure :
    (createReservation stBase [kA1] 7 0 false).reservationPersisted = false ∧
    (createReservation stBase [kA1] 7 0 false).savedShowtime.reservedSeats =
      [{ row := "A", number := 1, reservedBy := 7, reservedAt := 0 }] ∧
    (createReservation stBase [kA1] 7 0 false).savedShowtime.availableSeats =
      [{ seatA1 with isAvailable := false }, seatA2] ∧
    (createReservation stBase [kA1] 7 0 false).result =
      BookResult.seatReservationFailed "Failed to save reservation" := by
  refine ⟨rfl, rfl, rfl, rfl⟩

/-- C6 counterexample: a `no_show` reservation — a terminal status — on a
screening starting far in the future is reported cancellable, because
`isCancellable` only tests `cancelled` and `completed`. -/
theorem isCancellable_true_for_no_show :
    (mkRes stFar ResStatus.no_show).status = ResStatus.no_show ∧
    isCancellable (mkRes stFar ResStatus.no_show) 0 = true := by
  exact ⟨rfl, rfl⟩

/-- C6 (amended): `isCancellable` is false exactly when the status is
`cancelled` or `completed` (but not `no_show`) or the start is within two
hours; cancellation is permitted only while it holds, so re-cancelling an
already-cancelled reservation is rejected. -/
theorem isCancellable_amended (r : Reservation) (now : Int) :
    (isCancellable r now = true ↔
      (r.status ≠ ResStatus.cancelled ∧ r.status ≠ ResStatus.completed ∧
        now + twoHoursMs < r.showtime.startTime)) ∧
    (isCancellable r now = false → ∀ reason,
      r.cancel reason now = Except.error "This reservation cannot be cancelled") ∧
    (r.status = ResStatus.cancelled → ∀ reason,
      r.cancel reason now = Except.error "This reservation cannot be cancelled") := by
  refine ⟨?_, ?_, ?_⟩
  · unfold isCancellable
    by_cases h : r.status = ResStatus.cancelled ∨ r.status = ResStatus.completed
    · simp [h]
      intro h1 h2
      rcases h with h | h
      · exact absurd h h1
      · exact absurd h h2
    · push_neg at h
      simp [h]
  · intro h reason
    unfold Reservation.cancel
    simp [h]
  · intro h reason
    unfold Reservation.cancel
    have : isCancellable r now = false := by
      unfold isCancellable
      simp [h]
    simp [this]

/-- C6 witness: re-cancelling an already-cancelled reservation is rejected. -/
theorem isCancellable_amended_witness :
    (mkRes stFar ResStatus.cancelled).cancel "again" 0 =
      Except.error "This reservation cannot be cancelled" :=
  (isCancellable_amended (mkRes stFar ResStatus.cancelled) 0).2.2 rfl "again"

/-- C8 counterexample: the administrative status update maps an
already-cancelled (terminal) reservation to `confirmed` successfully instead
of failing with `InvalidTransition`. -/
theorem updateStatus_from_terminal_succeeds :
    (mkRes stFar ResStatus.cancelled).status = ResStatus.cancelled ∧
    updateReservationStatus (mkRes stFar ResStatus.cancelled) "confirmed" =
      Except.ok { mkRes stFar ResStatus.cancelled with status := ResStatus.confirmed } := by
  exact ⟨rfl, rfl⟩

/-- C8 (amended): `updateReservationStatus` validates only membership of the
target in the five-status enum; every enum status — from any current status,
terminal ones included — is simply written through, and no transition is
ever rejected with `InvalidTransition`. -/
theorem updateStatus_amended (r : Reservation) (s : String) :
    (∀ t, parseStatus s = some t →
      updateReservationStatus r s = Except.ok { r with status := t }) ∧
    (parseStatus s = none →
      updateReservationStatus r s = Except.error "Invalid status") := by
  constructor
  · intro t ht
    unfold updateReservationStatus
    rw [ht]
    cases t <;> rfl
  · intro ht
    unfold updateReservationStatus
    rw [ht]

/-- C8 witness: setting a `completed` status on a cancelled reservation
succeeds. -/
theorem updateStatus_amended_witness :
    updateReservationStatus (mkRes stFar ResStatus.cancelled) "completed" =
      Except.ok { mkRes stFar ResStatus.cancelled with status := ResStatus.completed } :=
  (updateStatus_amended (mkRes stFar ResStatus.cancelled) "completed").1
    ResStatus.completed rfl

/-- C3: whenever cancellation is permitted, the refund recorded by `cancel`
equals the spec's pure refund function of (totalAmount, hoursUntilStart). -/
theorem cancel_refund_pure (r : Reservation) (reason : String) (now : Int)
    (hc : isCancellable r now = true) :
    ∃ r2, r.cancel reason now = Except.ok r2 ∧
      r2.refundAmount = some (refundSpec r.totalAmount (hoursUntil r now)) := by
  unfold Reservation.cancel
  simp only [hc, Bool.true_eq_false, if_false]
  refine ⟨_, rfl, ?_⟩
  unfold refundSpec
  by_cases h24 : 24 < hoursUntil r now
  · simp [h24, mul_comm]
  · by_cases h2 : 2 < hoursUntil r now
    · simp [h24, h2, le_of_not_lt h24, mul_comm]
    · simp [h24, h2]

/-- C3 witness: cancelling a confirmed reservation about 27.8 hours before
start refunds the spec amount. -/
theorem cancel_refund_pure_witness :
    ∃ r2, (mkRes stFar ResStatus.confirmed).cancel "trip" 0 = Except.ok r2 ∧
      r2.refundAmount = some (refundSpec (mkRes stFar ResStatus.confirmed).totalAmount
        (hoursUntil (mkRes stFar ResStatus.confirmed) 0)) :=
  cancel_refund_pure (mkRes stFar ResStatus.confirmed) "trip" 0 (by decide)

/-- The minute comparison of the check-in controller against its 120-minute
bound, restated over integer milliseconds. -/
theorem minuteDiff_gt_iff (d : Int) :
    ((120 : Rat) < (d : Rat) / 60000) ↔ 7200000 < d := by
  rw [lt_div_iff₀ (by norm_num : (0 : Rat) < 60000)]
  norm_num
  exact_mod_cast Iff.rfl

/-- The minute comparison of the check-in controller against its -30-minute
bound, restated over integer milliseconds. -/
theorem minuteDiff_lt_iff (d : Int) :
    ((d : Rat) / 60000 < -30) ↔ d < -1800000 := by
  rw [div_lt_iff₀ (by norm_num : (0 : Rat) < 60000)]
  norm_num
  exact_mod_cast Iff.rfl

/-- C4 counterexample: a `pending` reservation far outside the check-in
window fails with the status error, not with a `CheckInWindowViolation`
(`tooEarly`/`tooLate`) — refuting "outside that window it fails with
CheckInWindowViolation regardless of status". -/
theorem checkIn_outside_window_status_error :
    checkInReservation (mkRes stFar ResStatus.pending) 0 =
      Except.error CheckInError.invalidStatus ∧
    0 < (mkRes stFar ResStatus.pending).showtime.startTime - 7200000 ∧
    CheckInError.invalidStatus ≠ CheckInError.tooEarly ∧
    CheckInError.invalidStatus ≠ CheckInError.tooLate := by
  exact ⟨rfl, by decide, by decide, by decide⟩

/-- C4 (amended): check-in succeeds iff the status is `confirmed` and now is
within [start − 2h, start + 30m]; a confirmed reservation outside the window
fails with the window violation; a non-`confirmed` one fails with the status
error regardless of the window; success records the timestamp and leaves the
status unchanged. -/
theorem checkIn_window_amended (r : Reservation) (now : Int) :
    ((∃ r2, checkInReservation r now = Except.ok r2) ↔
      (r.status = ResStatus.confirmed ∧
        r.showtime.startTime - 7200000 ≤ now ∧ now ≤ r.showtime.startTime + 1800000)) ∧
    (r.status ≠ ResStatus.confirmed →
      checkInReservation r now = Except.error CheckInError.invalidStatus) ∧
    (r.status = ResStatus.confirmed → now < r.showtime.startTime - 7200000 →
      checkInReservation r now = Except.error CheckInError.tooEarly) ∧
    (r.status = ResStatus.confirmed → r.showtime.startTime + 1800000 < now →
      checkInReservation r now = Except.error CheckInError.tooLate) ∧
    (∀ r2, checkInReservation r now = Except.ok r2 →
      r2.checkInTime = some now ∧ r2.status = r.status) := by
  have hE := minuteDiff_gt_iff (r.showtime.startTime - now)
  have hL := minuteDiff_lt_iff (r.showtime.startTime - now)
  refine ⟨?_, ?_, ?_, ?_, ?_⟩
  · constructor
    · rintro ⟨r2, h2⟩
      unfold checkInReservation at h2
      by_cases hs : r.status = ResStatus.confirmed
      · rw [if_neg (not_ne_iff.mpr hs)] at h2
        by_cases h1 : (120 : Rat) < ((r.showtime.startTime - now : Int) : Rat) / 60000
        · rw [if_pos h1] at h2
          cases h2
        · rw [if_neg h1] at h2
          by_cases hlo : ((r.showtime.startTime - now : Int) : Rat) / 60000 < -30
          · rw [if_pos hlo] at h2
            cases h2
          · rw [hE] at h1
            rw [hL] at hlo
            exact ⟨hs, by omega, by omega⟩
      · rw [if_pos hs] at h2
        cases h2
    · rintro ⟨hs, hlo, hhi⟩
      unfold checkInReservation
      rw [if_neg (not_ne_iff.mpr hs), if_neg (by rw [hE]; omega),
        if_neg (by rw [hL]; omega)]
      exact ⟨_, rfl⟩
  · intro hs
    unfold checkInReservation
    rw [if_pos hs]
  · intro hs hlt
    unfold checkInReservation
    rw [if_neg (not_ne_iff.mpr hs), if_pos (hE.mpr (by omega))]
  · intro hs hlt
    unfold checkInReservation
    rw [if_neg (not_ne_iff.mpr hs), if_neg (by rw [hE]; omega),
      if_pos (hL.mpr (by omega))]
  · intro r2 h2
    unfold checkInReservation at h2
    by_cases hs : r.status = ResStatus.confirmed
    · rw [if_neg (not_ne_iff.mpr hs)] at h2
      by_cases h1 : (120 : Rat) < ((r.showtime.startTime - now : Int) : Rat) / 60000
      · rw [if_pos h1] at h2
        cases h2
      · rw [if_neg h1] at h2
        by_cases hlo : ((r.showtime.startTime - now : Int) : Rat) / 60000 < -30
        · rw [if_pos hlo] at h2
          cases h2
        · rw [if_neg hlo] at h2
          cases h2
          exact ⟨rfl, rfl⟩
    · rw [if_pos hs] at h2
      cases h2

/-- C4 witness: a confirmed reservation checked in inside the window
succeeds. -/
theorem checkIn_window_amended_witness :
    ∃ r2, checkInReservation (mkRes stBase ResStatus.confirmed) 0 = Except.ok r2 :=
  (checkIn_window_amended (mkRes stBase ResStatus.confirmed) 0).1.mpr
    ⟨rfl, by decide, by decide⟩

/-- The conflict query of `createShowtime` finds a row iff some active
screening at the theater half-open-overlaps the new window. -/
theorem findConflict_isSome_iff (existing : List ScreeningRec) (th : Nat) (s e : Int) :
    (findConflict existing th s e).isSome ↔
      ∃ o ∈ existing, o.theater = th ∧ o.isActive = true ∧ o.startTime < e ∧ s < o.endTime := by
  unfold findConflict
  rw [List.find?_isSome]
  simp [Bool.and_eq_true, beq_iff_eq, decide_eq_true_iff, and_assoc]

/-- The self-excluding conflict query of `updateShowtime` finds a row iff some
other active screening at the theater half-open-overlaps the new window. -/
theorem findConflictExcl_isSome_iff (existing : List ScreeningRec) (selfId th : Nat)
    (s e : Int) :
    (findConflictExcl existing selfId th s e).isSome ↔
      ∃ o ∈ existing, o.sid ≠ selfId ∧ o.theater = th ∧ o.isActive = true ∧
        o.startTime < e ∧ s < o.endTime := by
  unfold findConflictExcl
  rw [List.find?_isSome]
  simp [Bool.and_eq_true, beq_iff_eq, decide_eq_true_iff, and_assoc,
    Bool.not_eq_true', beq_eq_false_iff_ne]

/-- C7: a screening-creation or screening-edit request with a valid future
window [s, e) fails with the scheduling conflict iff some other active
screening at the theater satisfies the half-open overlap condition
(its start < e and s < its end); with no such overlap it succeeds. -/
theorem scheduling_conflict_characterization
    (existing : List ScreeningRec) (cur : ScreeningRec) (curReserved : List ReservedSeat)
    (newId th : Nat) (s e now : Int) (hwin : s < e) (hfut : now ≤ s) :
    ((∃ c, createShowtime existing newId th s e now =
        CreateShowtimeResult.scheduleConflict c) ↔
      ∃ o ∈ existing, o.theater = th ∧ o.isActive = true ∧ o.startTime < e ∧ s < o.endTime) ∧
    ((¬ ∃ o ∈ existing, o.theater = th ∧ o.isActive = true ∧ o.startTime < e ∧ s < o.endTime) →
      ∃ rec, createShowtime existing newId th s e now = CreateShowtimeResult.ok rec) ∧
    (now ≤ cur.startTime → curReserved = [] →
      (((∃ c, updateShowtime existing cur curReserved (some th) (some s) (some e) now =
          UpdateShowtimeResult.scheduleConflict c) ↔
        ∃ o ∈ existing, o.sid ≠ cur.sid ∧ o.theater = th ∧ o.isActive = true ∧
          o.startTime < e ∧ s < o.endTime) ∧
      ((¬ ∃ o ∈ existing, o.sid ≠ cur.sid ∧ o.theater = th ∧ o.isActive = true ∧
          o.startTime < e ∧ s < o.endTime) →
        ∃ rec, updateShowtime existing cur curReserved (some th) (some s) (some e) now =
          UpdateShowtimeResult.ok rec))) := by
  have hne1 : ¬ e ≤ s := by omega
  have hne2 : ¬ s < now := by omega
  refine ⟨?_, ?_, ?_⟩
  · rw [← findConflict_isSome_iff]
    unfold createShowtime
    cases hconf : findConflict existing th s e with
    | some c => simp
    | none => simp [hne1, hne2]
  · rw [← findConflict_isSome_iff]
    unfold createShowtime
    cases hconf : findConflict existing th s e with
    | some c =>
      intro hn
      simp at hn
    | none =>
      intro hn
      exact ⟨{ sid := newId, theater := th, startTime := s, endTime := e, isActive := true },
        by simp [hne1, hne2]⟩
  · intro hcur hres
    have hne3 : ¬ cur.startTime < now := by omega
    unfold updateShowtime
    rw [if_neg hne3, if_neg (by simp [hres]), if_pos (by simp)]
    simp only [Option.getD_some]
    constructor
    · rw [← findConflictExcl_isSome_iff]
      cases hconf : findConflictExcl existing cur.sid th s e with
      | some c => simp
      | none => simp [hne1]
    · rw [← findConflictExcl_isSome_iff]
      cases hconf : findConflictExcl existing cur.sid th s e with
      | some c =>
        intro hn
        simp at hn
      | none =>
        intro hn
        exact ⟨{ cur with theater := th, startTime := s, endTime := e }, by simp [hne1]⟩

/-- C7 witness: creating a screening over [100, 200) against a colliding
active screening fails with the conflict, and creating it against a
disjoint one succeeds. -/
theorem scheduling_conflict_witness :
    (∃ c, createShowtime [scrEarly] 9 1 100 200 0 =
      CreateShowtimeResult.scheduleConflict c) ∧
    (∃ rec, createShowtime [scrLate] 9 1 100 200 0 = CreateShowtimeResult.ok rec) := by
  constructor
  · exact (scheduling_conflict_characterization [scrEarly] scrMid [] 9 1 100 200 0
      (by decide) (by decide)).1.mpr (by decide)
  · exact (scheduling_conflict_characterization [scrLate] scrMid [] 9 1 100 200 0
      (by decide) (by decide)).2.1 (by decide)

/-- Updating availability does not change a seat's key match. -/
theorem keyMatch_update (k : SeatKey) (s : Seat) (b : Bool) :
    keyMatch k { s with isAvailable := b } = keyMatch k s := rfl

/-- Two first-match availability flips for possibly different keys commute. -/
theorem setFirstAvail_comm (k1 k2 : SeatKey) (l : List Seat) :
    setFirstAvail k1 (setFirstAvail k2 l) = setFirstAvail k2 (setFirstAvail k1 l) := by
  induction l with
  | nil => rfl
  | cons s rest ih =>
    by_cases h1 : keyMatch k1 s
    · by_cases h2 : keyMatch k2 s
      · simp [setFirstAvail, h1, h2, keyMatch_update]
      · simp [setFirstAvail, h1, h2, keyMatch_update]
    · by_cases h2 : keyMatch k2 s
      · simp [setFirstAvail, h1, h2, keyMatch_update]
      · simp [setFirstAvail, h1, h2, ih]

/-- The first-match availability flip is idempotent. -/
theorem setFirstAvail_idem (k : SeatKey) (l : List Seat) :
    setFirstAvail k (setFirstAvail k l) = setFirstAvail k l := by
  induction l with
  | nil => rfl
  | cons s rest ih =>
    by_cases h1 : keyMatch k s
    · simp [setFirstAvail, h1, keyMatch_update]
    · simp [setFirstAvail, h1, ih]

/-- Two filters commute. -/
theorem filter_swap {α : Type} (p q : α → Bool) (l : List α) :
    (l.filter q).filter p = (l.filter p).filter q := by
  rw [List.filter_filter, List.filter_filter]
  congr 1
  funext a
  exact Bool.and_comm _ _

/-- Single-key releases commute. -/
theorem releaseOne_comm (st : Showtime) (k1 k2 : SeatKey) :
    releaseOne (releaseOne st k2) k1 = releaseOne (releaseOne st k1) k2 := by
  unfold releaseOne
  rw [filter_swap, setFirstAvail_comm]

/-- A single-key release is idempotent. -/
theorem releaseOne_idem (st : Showtime) (k : SeatKey) :
    releaseOne (releaseOne st k) k = releaseOne st k := by
  unfold releaseOne
  simp [List.filter_filter, setFirstAvail_idem]

/-- `releaseSeats` on a key list, then one more single-key release, equals
doing the single-key release first. -/
theorem releaseOne_releaseSeats_swap (ks : List SeatKey) :
    ∀ (st : Showtime) (k : SeatKey),
      releaseOne (st.releaseSeats ks) k = (releaseOne st k).releaseSeats ks := by
  induction ks with
  | nil => intro st k; rfl
  | cons k2 ks ih =>
    intro st k
    show releaseOne ((releaseOne st k2).releaseSeats ks) k =
      (releaseOne (releaseOne st k) k2).releaseSeats ks
    rw [ih (releaseOne st k2) k, releaseOne_comm]

/-- C9: `releaseSeats` is idempotent and total: releasing the same key list
twice gives the same state as once, and releasing a key whose seat is already
available (or absent) with no matching claim record leaves the screening
unchanged — never an error. -/
theorem releaseSeats_idempotent_total :
    (∀ (st : Showtime) (ks : List SeatKey),
      (st.releaseSeats ks).releaseSeats ks = st.releaseSeats ks) ∧
    (∀ (st : Showtime) (k : SeatKey),
      (∀ s ∈ st.availableSeats, keyMatch k s = true → s.isAvailable = true) →
      (∀ c ∈ st.reservedSeats, claimMatch k c = false) →
      st.releaseSeats [k] = st) := by
  constructor
  · intro st ks
    induction ks generalizing st with
    | nil => rfl
    | cons k ks ih =>
      show ((releaseOne st k).releaseSeats ks).releaseSeats (k :: ks) =
        (releaseOne st k).releaseSeats ks
      show (releaseOne ((releaseOne st k).releaseSeats ks) k).releaseSeats ks =
        (releaseOne st k).releaseSeats ks
      rw [releaseOne_releaseSeats_swap, releaseOne_idem]
      exact ih (releaseOne st k)
  · intro st k havail hclaims
    show releaseOne st k = st
    unfold releaseOne
    have hfilter : st.reservedSeats.filter (fun c => !(claimMatch k c)) = st.reservedSeats := by
      rw [List.filter_eq_self]
      intro c hc
      simp [hclaims c hc]
    have hset : setFirstAvail k st.availableSeats = st.availableSeats := by
      have h := havail
      generalize st.availableSeats = l at h ⊢
      induction l with
      | nil => rfl
      | cons s rest ih =>
        by_cases hm : keyMatch k s
        · unfold setFirstAvail
          rw [if_pos hm]
          have hav : s.isAvailable = true := h s (List.mem_cons_self s rest) hm
          have : ({ s with isAvailable := true } : Seat) = s := by
            cases s
            simp_all
          rw [this]
        · unfold setFirstAvail
          rw [if_neg hm]
          rw [ih (fun x hx => h x (List.mem_cons_of_mem s hx))]
    rw [hfilter, hset]

/-- C9 witness: double release equals single release on a claimed screening,
and releasing an already-available unclaimed seat is the identity. -/
theorem releaseSeats_idempotent_total_witness :
    ((stClaimed.releaseSeats [kA1, kA2]).releaseSeats [kA1, kA2] =
      stClaimed.releaseSeats [kA1, kA2]) ∧
    stBase.releaseSeats [kA1] = stBase :=
  ⟨releaseSeats_idempotent_total.1 stClaimed [kA1, kA2],
    releaseSeats_idempotent_total.2 stBase kA1 (by decide) (by decide)⟩

/-- How a seat key match reads as propositional equalities. -/
theorem keyMatch_iff (k : SeatKey) (s : Seat) :
    keyMatch k s = true ↔ (s.row = k.row ∧ s.number = k.number) := by
  simp [keyMatch]

/-- With unique seat keys, after the release flip every seat matching the key
is available. -/
theorem setFirstAvail_all_avail (k : SeatKey) (l : List Seat) (hnd : seatKeysNodup l) :
    ∀ s ∈ setFirstAvail k l, keyMatch k s = true → s.isAvailable = true := by
  induction l with
  | nil => intro s hs; cases hs
  | cons s rest ih =>
    have hnd2 : seatKeysNodup rest := by
      unfold seatKeysNodup at hnd ⊢
      exact (List.nodup_cons.mp hnd).2
    have hnotin : (s.row, s.number) ∉ rest.map (fun x => (x.row, x.number)) :=
      (List.nodup_cons.mp hnd).1
    by_cases hm : keyMatch k s
    · unfold setFirstAvail
      rw [if_pos hm]
      intro x hx hkx
      rcases List.mem_cons.mp hx with hx1 | hx2
      · rw [hx1]
      · exfalso
        apply hnotin
        have h1 := (keyMatch_iff k x).mp hkx
        have h2 := (keyMatch_iff k s).mp hm
        have : (x.row, x.number) = (s.row, s.number) := by
          rw [h1.1, h1.2, h2.1, h2.2]
        rw [← this]
        exact List.mem_map_of_mem _ hx2
    · unfold setFirstAvail
      rw [if_neg hm]
      intro x hx hkx
      rcases List.mem_cons.mp hx with hx1 | hx2
      · exact absurd (hx1 ▸ hkx) hm
      · exact ih hnd2 x hx2 hkx

/-- C10: `releaseSeats` deletes every claim record whose (row, number) key
matches a released seat, regardless of the claim's holder, and marks the
seat available; claims on other keys survive. -/
theorem releaseSeats_removes_claims_any_holder (st : Showtime) (k : SeatKey) (v : Nat)
    (hnd : seatKeysNodup st.availableSeats)
    (hclaim : ∃ c ∈ st.reservedSeats, claimMatch k c = true ∧ c.reservedBy = v) :
    (∀ c ∈ (st.releaseSeats [k]).reservedSeats, claimMatch k c = false) ∧
    (∀ s ∈ (st.releaseSeats [k]).availableSeats, keyMatch k s = true → s.isAvailable = true) ∧
    (∀ c ∈ st.reservedSeats, claimMatch k c = false →
      c ∈ (st.releaseSeats [k]).reservedSeats) := by
  have h1 : st.releaseSeats [k] = releaseOne st k := rfl
  rw [h1]
  unfold releaseOne
  refine ⟨?_, ?_, ?_⟩
  · intro c hc
    have := (List.mem_filter.mp hc).2
    simpa using this
  · exact setFirstAvail_all_avail k st.availableSeats hnd
  · intro c hc hm
    exact List.mem_filter.mpr ⟨hc, by simp [hm]⟩

/-- C10 witness: releasing A1 on a screening where user 9 holds the claim
removes the claim and frees the seat. -/
theorem releaseSeats_removes_claims_any_holder_witness :
    (∀ c ∈ (stClaimed.releaseSeats [kA1]).reservedSeats, claimMatch kA1 c = false) ∧
    (∀ s ∈ (stClaimed.releaseSeats [kA1]).availableSeats,
      keyMatch kA1 s = true → s.isAvailable = true) ∧
    (∀ c ∈ stClaimed.reservedSeats, claimMatch kA1 c = false →
      c ∈ (stClaimed.releaseSeats [kA1]).reservedSeats) :=
  releaseSeats_removes_claims_any_holder stClaimed kA1 9 (by decide) (by decide)

/-- How an available match reads as propositional equalities. -/
theorem availMatch_iff (k : SeatKey) (s : Seat) :
    availMatch k s = true ↔ (s.row = k.row ∧ s.number = k.number ∧ s.isAvailable = true) := by
  simp [availMatch, and_assoc]

/-- An available match implies the key match. -/
theorem availMatch_imp_keyMatch (k : SeatKey) (s : Seat) (h : availMatch k s = true) :
    keyMatch k s = true := by
  obtain ⟨h1, h2, _⟩ := (availMatch_iff k s).mp h
  exact (keyMatch_iff k s).mpr ⟨h1, h2⟩

/-- A seat flipped to unavailable never satisfies an available match. -/
theorem availMatch_update_false (k : SeatKey) (s : Seat) :
    availMatch k { s with isAvailable := false } = false := by
  simp [availMatch]

/-- The claim flip preserves the key sequence of the inventory. -/
theorem keys_setFirstUnavail (k : SeatKey) (l : List Seat) :
    (setFirstUnavail k l).map (fun s => (s.row, s.number)) =
      l.map (fun s => (s.row, s.number)) := by
  induction l with
  | nil => rfl
  | cons s rest ih =>
    by_cases hm : availMatch k s
    · simp [setFirstUnavail, hm]
    · simp [setFirstUnavail, hm, ih]

/-- The claim flip preserves uniqueness of seat keys. -/
theorem seatKeysNodup_setFirstUnavail (k : SeatKey) (l : List Seat)
    (h : seatKeysNodup l) : seatKeysNodup (setFirstUnavail k l) := by
  unfold seatKeysNodup at h ⊢
  rw [keys_setFirstUnavail]
  exact h

/-- The claim flip never creates an available match for any key. -/
theorem setFirstUnavail_no_new_avail (k k2 : SeatKey) (l : List Seat)
    (h : ∀ x ∈ l, availMatch k x = false) :
    ∀ x ∈ setFirstUnavail k2 l, availMatch k x = false := by
  induction l with
  | nil => intro x hx; cases hx
  | cons s rest ih =>
    by_cases hm : availMatch k2 s
    · unfold setFirstUnavail
      rw [if_pos hm]
      intro x hx
      rcases List.mem_cons.mp hx with hx1 | hx2
      · rw [hx1]
        exact availMatch_update_false k s
      · exact h x (List.mem_cons_of_mem s hx2)
    · unfold setFirstUnavail
      rw [if_neg hm]
      intro x hx
      rcases List.mem_cons.mp hx with hx1 | hx2
      · exact hx1 ▸ h s (List.mem_cons_self s rest)
      · exact ih (fun y hy => h y (List.mem_cons_of_mem s hy)) x hx2

/-- With unique seat keys, after flipping a key no seat with that key is
still available. -/
theorem setFirstUnavail_self_none (k : SeatKey) (l : List Seat)
    (hnd : seatKeysNodup l) :
    ∀ x ∈ setFirstUnavail k l, availMatch k x = false := by
  induction l with
  | nil => intro x hx; cases hx
  | cons s rest ih =>
    have hnd2 : seatKeysNodup rest := by
      unfold seatKeysNodup at hnd ⊢
      exact (List.nodup_cons.mp hnd).2
    have hnotin : (s.row, s.number) ∉ rest.map (fun x => (x.row, x.number)) :=
      (List.nodup_cons.mp hnd).1
    by_cases hm : availMatch k s
    · unfold setFirstUnavail
      rw [if_pos hm]
      intro x hx
      rcases List.mem_cons.mp hx with hx1 | hx2
      · rw [hx1]
        exact availMatch_update_false k s
      · cases hav : availMatch k x with
        | false => rfl
        | true =>
          exfalso
          apply hnotin
          obtain ⟨hx1, hx2a, _⟩ := (availMatch_iff k x).mp hav
          obtain ⟨hs1, hs2, _⟩ := (availMatch_iff k s).mp hm
          have : (x.row, x.number) = (s.row, s.number) := by
            rw [hx1, hx2a, hs1, hs2]
          rw [← this]
          exact List.mem_map_of_mem _ hx2
    · unfold setFirstUnavail
      rw [if_neg hm]
      intro x hx
      rcases List.mem_cons.mp hx with hx1 | hx2
      · exact hx1 ▸ (by cases hav : availMatch k s with
          | false => rfl
          | true => exact absurd hav hm)
      · exact ih hnd2 x hx2

/-- Flipping one key leaves the available-match search for a different key
unchanged. -/
theorem find_setFirstUnavail_ne (k k2 : SeatKey) (l : List Seat) (hne : k2 ≠ k) :
    (setFirstUnavail k l).find? (availMatch k2) = l.find? (availMatch k2) := by
  induction l with
  | nil => rfl
  | cons s rest ih =>
    by_cases hm : availMatch k s
    · obtain ⟨hs1, hs2, _⟩ := (availMatch_iff k s).mp hm
      have hk2s : availMatch k2 s = false := by
        cases hav : availMatch k2 s with
        | false => rfl
        | true =>
          exfalso
          obtain ⟨h1, h2, _⟩ := (availMatch_iff k2 s).mp hav
          apply hne
          cases k2 with
          | mk r2 n2 =>
            cases k with
            | mk r1 n1 =>
              simp_all
      have hk2u : availMatch k2 ({ s with isAvailable := false }) = false :=
        availMatch_update_false k2 s
      unfold setFirstUnavail
      rw [if_pos hm, List.find?_cons_of_neg _ (by simp [hk2u]),
        List.find?_cons_of_neg _ (by simp [hk2s])]
    · unfold setFirstUnavail
      rw [if_neg hm]
      cases hav : availMatch k2 s with
      | true =>
        rw [List.find?_cons_of_pos _ (by simp [hav]), List.find?_cons_of_pos _ (by simp [hav])]
      | false =>
        rw [List.find?_cons_of_neg _ (by simp [hav]), List.find?_cons_of_neg _ (by simp [hav])]
        exact ih

/-- Unfolding `flipAll` over a cons. -/
theorem flipAll_cons (k : SeatKey) (ks : List SeatKey) (l : List Seat) :
    flipAll (k :: ks) l = flipAll ks (setFirstUnavail k l) := rfl

/-- `flipAll` never creates an available match for any key. -/
theorem flipAll_no_new_avail (k : SeatKey) (ks : List SeatKey) :
    ∀ (l : List Seat), (∀ x ∈ l, availMatch k x = false) →
      ∀ x ∈ flipAll ks l, availMatch k x = false := by
  induction ks with
  | nil => intro l h; exact h
  | cons k2 ks ih =>
    intro l h
    rw [flipAll_cons]
    exact ih (setFirstUnavail k2 l) (setFirstUnavail_no_new_avail k k2 l h)

/-- `flipAll` preserves uniqueness of seat keys. -/
theorem seatKeysNodup_flipAll (ks : List SeatKey) :
    ∀ (l : List Seat), seatKeysNodup l → seatKeysNodup (flipAll ks l) := by
  induction ks with
  | nil => intro l h; exact h
  | cons k ks ih =>
    intro l h
    rw [flipAll_cons]
    exact ih (setFirstUnavail k l) (seatKeysNodup_setFirstUnavail k l h)

/-- With unique inventory keys, after `flipAll` every requested key has no
available match left. -/
theorem flipAll_requested_unavail (ks : List SeatKey) :
    ∀ (l : List Seat), seatKeysNodup l →
      ∀ k ∈ ks, ∀ x ∈ flipAll ks l, availMatch k x = false := by
  induction ks with
  | nil => intro l _ k hk; cases hk
  | cons k0 ks ih =>
    intro l hnd k hk
    rw [flipAll_cons]
    rcases List.mem_cons.mp hk with hk1 | hk2
    · subst hk1
      exact flipAll_no_new_avail k ks (setFirstUnavail k l)
        (setFirstUnavail_self_none k l hnd)
    · exact ih (setFirstUnavail k0 l) (seatKeysNodup_setFirstUnavail k0 l hnd) k hk2

/-- The claim record pushed for one requested key. -/
def mkClaim (uid : Nat) (now : Int) (k : SeatKey) : ReservedSeat :=
  { row := k.row, number := k.number, reservedBy := uid, reservedAt := now }

/-- Characterization of the `reserveSeats` loop when every requested key is
available and the request has no duplicate keys: it succeeds, flips exactly
the requested keys, and appends one claim per key in order. -/
theorem reserveLoop_eq (uid : Nat) (now : Int) (ks : List SeatKey) :
    ∀ (st : Showtime) (acc : List ReservedSeat), ks.Nodup →
      (∀ k ∈ ks, (findAvail st k).isSome) →
      reserveLoop uid now st acc ks =
        ({ st with
            availableSeats := flipAll ks st.availableSeats,
            reservedSeats := st.reservedSeats ++ (acc ++ ks.map (mkClaim uid now)) },
          Except.ok (acc ++ ks.map (mkClaim uid now))) := by
  induction ks with
  | nil =>
    intro st acc _ _
    simp [reserveLoop, flipAll]
  | cons k rest ih =>
    intro st acc hnd hav
    obtain ⟨s, hs⟩ := Option.isSome_iff_exists.mp (hav k (List.mem_cons_self k rest))
    have hsm : availMatch k s = true := List.find?_some hs
    obtain ⟨hrow, hnum, _⟩ := (availMatch_iff k s).mp hsm
    have hrec : reserveLoop uid now st acc (k :: rest) =
        reserveLoop uid now { st with availableSeats := setFirstUnavail k st.availableSeats }
          (acc ++ [{ row := s.row, number := s.number, reservedBy := uid, reservedAt := now }])
          rest := by
      simp only [reserveLoop]
      rw [hs]
    rw [hrec]
    have hav2 : ∀ k2 ∈ rest,
        (findAvail { st with availableSeats := setFirstUnavail k st.availableSeats } k2).isSome := by
      intro k2 hk2
      have hne : k2 ≠ k := by
        intro he
        exact (List.nodup_cons.mp hnd).1 (he ▸ hk2)
      show (List.find? (availMatch k2) (setFirstUnavail k st.availableSeats)).isSome
      rw [find_setFirstUnavail_ne k k2 st.availableSeats hne]
      exact hav k2 (List.mem_cons_of_mem k hk2)
    rw [ih _ _ (List.nodup_cons.mp hnd).2 hav2]
    rw [hrow, hnum]
    simp [flipAll_cons, mkClaim]

/-- `reserveSeats` on a duplicate-free fully-available request: explicit
result. -/
theorem reserveSeats_ok (st : Showtime) (ks : List SeatKey) (uid : Nat) (now : Int)
    (hnd : ks.Nodup) (hav : ∀ k ∈ ks, (findAvail st k).isSome) :
    st.reserveSeats ks uid now =
      ({ st with
          availableSeats := flipAll ks st.availableSeats,
          reservedSeats := st.reservedSeats ++ ks.map (mkClaim uid now) },
        Except.ok (ks.map (mkClaim uid now))) := by
  unfold Showtime.reserveSeats
  rw [reserveLoop_eq uid now ks st [] hnd hav]
  simp

/-- Each available requested key contributes a captured seat whose class and
price come from an inventory seat with that key. -/
theorem captureSeats_mem (st : Showtime) (ks : List SeatKey) (k : SeatKey)
    (hk : k ∈ ks) (hav : (findAvail st k).isSome) :
    ∃ s0 ∈ st.availableSeats, keyMatch k s0 = true ∧
      ∃ e ∈ captureSeats st ks, e.row = k.row ∧ e.number = k.number ∧
        e.type = s0.type ∧ e.price = s0.price := by
  have h1 : (st.availableSeats.find? (keyMatch k)).isSome := by
    rw [List.find?_isSome]
    obtain ⟨s, hs⟩ := Option.isSome_iff_exists.mp hav
    exact ⟨s, List.mem_of_find?_eq_some hs, availMatch_imp_keyMatch k s (List.find?_some hs)⟩
  obtain ⟨s0, hs0⟩ := Option.isSome_iff_exists.mp h1
  refine ⟨s0, List.mem_of_find?_eq_some hs0, List.find?_some hs0, ?_⟩
  refine ⟨{ row := k.row, number := k.number, type := s0.type, price := s0.price },
    ?_, rfl, rfl, rfl, rfl⟩
  unfold captureSeats
  rw [List.mem_map]
  refine ⟨k, hk, ?_⟩
  simp only [hs0]

/-- C5: with a valid active future screening, if any requested seat key is
unavailable or unknown, the whole booking fails naming exactly the offending
keys and changes nothing; if every requested key is available (keys unique on
both sides), it succeeds, flips all requested seats unavailable, binds one
claim per key to the holder, and captures each seat's class and price in the
created reservation. -/
theorem claimSeats_all_or_nothing (st : Showtime) (ks : List SeatKey) (uid : Nat)
    (now : Int) (saveOk : Bool) (hact : st.isActive = true) (hfut : now < st.startTime) :
    ((∃ k ∈ ks, (findAvail st k).isNone) →
      createReservation st ks uid now saveOk =
        { result := BookResult.seatsUnavailable
            ((ks.filter (fun k => (findAvail st k).isNone)).map seatKeyStr),
          savedShowtime := st, reservationPersisted := false }) ∧
    (ks.Nodup → seatKeysNodup st.availableSeats →
      (∀ k ∈ ks, (findAvail st k).isSome) → saveOk = true →
      ∃ r, (createReservation st ks uid now saveOk).result = BookResult.created r ∧
        (createReservation st ks uid now saveOk).reservationPersisted = true ∧
        (∀ k ∈ ks, ∀ x ∈ (createReservation st ks uid now saveOk).savedShowtime.availableSeats,
          availMatch k x = false) ∧
        (∀ k ∈ ks, ∃ c ∈ (createReservation st ks uid now saveOk).savedShowtime.reservedSeats,
          c.row = k.row ∧ c.number = k.number ∧ c.reservedBy = uid) ∧
        (∀ k ∈ ks, ∃ s0 ∈ st.availableSeats, keyMatch k s0 = true ∧
          ∃ e ∈ r.seats, e.row = k.row ∧ e.number = k.number ∧
            e.type = s0.type ∧ e.price = s0.price)) := by
  constructor
  · intro hex
    have hne : ks.filter (fun k => (findAvail st k).isNone) ≠ [] := by
      intro h0
      rw [List.filter_eq_nil_iff] at h0
      obtain ⟨k, hk, hkn⟩ := hex
      exact h0 k hk hkn
    unfold createReservation
    rw [if_neg (by simp [hact]), if_neg (not_le.mpr hfut), if_pos (by simp [hne])]
  · intro hnd hinv hav hsave
    subst hsave
    have hfilter : ks.filter (fun k => (findAvail st k).isNone) = [] := by
      rw [List.filter_eq_nil_iff]
      intro k hk
      have h1 := hav k hk
      simp only [Option.isNone_iff_eq_none]
      intro h0
      rw [h0] at h1
      cases h1
    have hmain : createReservation st ks uid now true =
        { result := BookResult.created (buildReservation st ks uid),
          savedShowtime := { st with
            availableSeats := flipAll ks st.availableSeats,
            reservedSeats := st.reservedSeats ++ ks.map (mkClaim uid now) },
          reservationPersisted := true } := by
      unfold createReservation
      rw [if_neg (by simp [hact]), if_neg (not_le.mpr hfut), if_neg (by simp [hfilter])]
      rw [reserveSeats_ok st ks uid now hnd hav]
      rfl
    refine ⟨buildReservation st ks uid, ?_, ?_, ?_, ?_, ?_⟩
    · rw [hmain]
    · rw [hmain]
    · rw [hmain]
      intro k hk x hx
      exact flipAll_requested_unavail ks st.availableSeats hinv k hk x hx
    · rw [hmain]
      intro k hk
      exact ⟨mkClaim uid now k,
        List.mem_append_right _ (List.mem_map_of_mem _ hk), rfl, rfl, rfl⟩
    · intro k hk
      exact captureSeats_mem st ks k hk (hav k hk)

/-- Fixture: seat key B1, absent from the base screening. -/
def kB1 : SeatKey := { row := "B", number := 1 }

/-- C5 witness: requesting the unknown seat B1 fails naming it and changes
nothing; requesting the available A1, A2 succeeds with both seats flipped,
claimed for user 7, with captured class and price. -/
theorem claimSeats_all_or_nothing_witness :
    (createReservation stBase [kB1] 7 0 true =
      { result := BookResult.seatsUnavailable ["B1"],
        savedShowtime := stBase, reservationPersisted := false }) ∧
    (∃ r, (createReservation stBase [kA1, kA2] 7 0 true).result = BookResult.created r ∧
      (createReservation stBase [kA1, kA2] 7 0 true).reservationPersisted = true ∧
      (∀ k ∈ [kA1, kA2],
        ∀ x ∈ (createReservation stBase [kA1, kA2] 7 0 true).savedShowtime.availableSeats,
          availMatch k x = false) ∧
      (∀ k ∈ [kA1, kA2],
        ∃ c ∈ (createReservation stBase [kA1, kA2] 7 0 true).savedShowtime.reservedSeats,
          c.row = k.row ∧ c.number = k.number ∧ c.reservedBy = 7) ∧
      (∀ k ∈ [kA1, kA2], ∃ s0 ∈ stBase.availableSeats, keyMatch k s0 = true ∧
        ∃ e ∈ r.seats, e.row = k.row ∧ e.number = k.number ∧
          e.type = s0.type ∧ e.price = s0.price)) := by
  constructor
  · exact (claimSeats_all_or_nothing stBase [kB1] 7 0 true (by decide) (by decide)).1
      (by decide)
  · exact (claimSeats_all_or_nothing stBase [kA1, kA2] 7 0 true (by decide) (by decide)).2
      (by decide) (by decide) (by decide) rfl

end MovieReg
